import Mathlib

/-!
Shallow embedding, in Lean 4, of the two scripts of the `mospi-watcher`
repository: `fetch_pdfs.py` (a PIB press-release PDF fetcher) and
`watcher.py` (a MoSPI publication watcher).  Network, browser and
filesystem effects are modelled by explicit oracle records; all pure
string manipulation is translated directly from the Python source.
-/

/-! ### String primitives (models of the Python built-ins used) -/

/-- Model of Python `pat in s` (substring containment) on character lists. -/
def containsSub (pat : List Char) : List Char → Bool
  | [] => pat.isPrefixOf ([] : List Char)
  | c :: cs => pat.isPrefixOf (c :: cs) || containsSub pat cs

/-- Model of Python `pat in s` on strings. -/
def strContains (s pat : String) : Bool :=
  containsSub pat.data s.data

/-- Model of Python `s.startswith(pat)`. -/
def strStartsWith (s pat : String) : Bool :=
  pat.data.isPrefixOf s.data

/-- Model of Python `s.endswith(pat)`. -/
def strEndsWith (s pat : String) : Bool :=
  pat.data.isSuffixOf s.data

/-- Model of Python `s.lower()` (ASCII case folding, the only case
arising in the URLs handled by the scripts). -/
def toLowerStr (s : String) : String :=
  ⟨s.data.map Char.toLower⟩

/-- Strip leading and trailing whitespace from a character list. -/
def stripChars (l : List Char) : List Char :=
  ((l.dropWhile Char.isWhitespace).reverse.dropWhile Char.isWhitespace).reverse

/-- Model of Python `s.strip()`. -/
def pyStrip (s : String) : String :=
  ⟨stripChars s.data⟩

/-- Model of Python `s.split(sep)` for a one-character separator:
all fields are kept, including empty ones. -/
def splitOnChar (sep : Char) : List Char → List (List Char)
  | [] => [[]]
  | c :: cs =>
    if c = sep then [] :: splitOnChar sep cs
    else List.modifyHead (fun h => c :: h) (splitOnChar sep cs)

/-- Model of Python line iteration over a file's contents: every `'\n'`
terminates a line, and a final fragment without a newline is still a
line, but a trailing newline produces no extra empty line. -/
def pyLines (content : List Char) : List (List Char) :=
  let parts := splitOnChar '\n' content
  if parts.getLast? = some [] then parts.dropLast else parts

/-- The maximal leading run of ASCII digits, as matched by `\d+`. -/
def digitRun (l : List Char) : List Char :=
  l.takeWhile Char.isDigit

/-- The characters of the regex literal `PRID=`. -/
def pridPat : List Char := ['P', 'R', 'I', 'D', '=']

/-- Whether the pattern `PRID=(\d+)` matches at position `i` of `u`:
the five literal characters appear at `i` and are immediately followed
by at least one digit. -/
def pridAtB (u : List Char) (i : Nat) : Bool :=
  decide ((u.drop i).take 5 = pridPat) &&
    (match (u.drop i).drop 5 with
      | c :: _ => c.isDigit
      | [] => false)

/-- Model of `re.search(r'PRID=(\d+)', u)`: scan positions left to
right, and at the first position where the pattern matches return the
maximal digit run that follows `PRID=`. -/
def searchPrid : List Char → Option (List Char)
  | [] => none
  | c :: cs =>
    if pridAtB (c :: cs) 0 then some (digitRun ((c :: cs).drop 5))
    else searchPrid cs

/-- String-level wrapper for `searchPrid`. -/
def extractPrid (s : String) : Option String :=
  (searchPrid s.data).map fun l => ⟨l⟩

/-- Insertion into a Python `set`, modelled as order-preserving
duplicate-free insertion into a list. -/
def insertUniq (acc : List String) (x : String) : List String :=
  if x ∈ acc then acc else acc ++ [x]

namespace FetchPdfs

/-- `fetch_pdfs.is_valid_pdf_link`: the link filter, translated
branch by branch from the Python source. -/
def is_valid_pdf_link (href : String) : Bool :=
  if href = "" then false
  else
    let h := toLowerStr href
    if !(strEndsWith h ".pdf") then false
    else if strStartsWith h "javascript:" || strStartsWith h "mailto:" then false
    else
      strContains h "specificdocs" || strContains h "generatepdf.aspx" ||
        strContains h "/pdf/" || strContains h "/document/"

/-- The filtering rule as the specification words it: a conjunction of
a non-emptiness condition, a suffix condition, two prefix exclusions
and a four-way substring alternative, all on the lowercased link. -/
def validPdfLinkSpec (href : String) : Prop :=
  href ≠ "" ∧
    strEndsWith (toLowerStr href) ".pdf" = true ∧
    strStartsWith (toLowerStr href) "javascript:" = false ∧
    strStartsWith (toLowerStr href) "mailto:" = false ∧
    (strContains (toLowerStr href) "specificdocs" = true ∨
      strContains (toLowerStr href) "generatepdf.aspx" = true ∨
      strContains (toLowerStr href) "/pdf/" = true ∨
      strContains (toLowerStr href) "/document/" = true)

/-- Outcome of an HTTP GET performed by `download_pdf`: either an
exception with a message, or a response with a content-type header and
a body size. -/
inductive HttpResp where
  | err (msg : String)
  | ok (contentType : String) (size : Nat)
deriving DecidableEq, Repr

/-- Outcome of the Playwright browser session of `convert_to_pdf`:
either a generated PDF of some size, or an exception with a message. -/
inductive BrowserResp where
  | ok (size : Nat)
  | err (msg : String)
deriving DecidableEq, Repr

/-- The anchors BeautifulSoup finds on the fetched page: all `<a href>`
elements of the document, and those inside the
`ContentPlaceHolder1_Content` div (the whole document again when that
div is absent). -/
structure PageData where
  anchors : List String
  mainAnchors : List String

/-- Oracle for all effects of one fetcher run on one URL: the browser
outcome, the page fetch outcome (`none` models a raised request
exception), the per-URL download outcomes, and the behaviour of
`urllib.parse.urljoin`. -/
structure FetchEnv where
  browser : BrowserResp
  page : Option PageData
  download : String → HttpResp
  urljoin : String → String → String

/-- The result dictionary built by `convert_to_pdf` / `download_pdf`;
absent dictionary keys are modelled by `none`. -/
structure ResultRec where
  status : String
  url : String
  filename : Option String
  size : Option Nat
  method : Option String
  error : Option String
deriving DecidableEq, Repr

/-- The per-URL result dictionary built by `process_single_url`. -/
structure UrlResult where
  url : String
  prid : Option String
  status : String
  files : List ResultRec
  error : Option String
deriving DecidableEq, Repr

/-- One PDF-acquisition step of `process_single_url`: the browser
rendering attempt, the scan of the page for PDF links, or the direct
download of one candidate link. -/
inductive Attempt where
  | browser
  | scan
  | download (pdfUrl : String)
deriving DecidableEq, Repr

/-- `fetch_pdfs.convert_to_pdf`: renders the page in a headless
browser and prints it to `pib_<prid>.pdf`. -/
def convert_to_pdf (env : FetchEnv) (url prid : String) : ResultRec :=
  let filename := "pib_" ++ prid ++ ".pdf"
  match env.browser with
  | BrowserResp.ok size =>
    { status := "success", url := url, filename := some filename,
      size := some size, method := some "browser_generated", error := none }
  | BrowserResp.err e =>
    { status := "failed", url := url, filename := none,
      size := none, method := none, error := some e }

/-- `fetch_pdfs.download_pdf`: direct download of one PDF link; the
body is written to `filename` only when the content-type header
contains `pdf`. -/
def download_pdf (env : FetchEnv) (pdf_url filename : String) : ResultRec :=
  match env.download pdf_url with
  | HttpResp.err e =>
    { status := "failed", url := pdf_url, filename := none,
      size := none, method := none, error := some e }
  | HttpResp.ok ct size =>
    if strContains (toLowerStr ct) "pdf" then
      { status := "success", url := pdf_url, filename := some filename,
        size := some size, method := some "direct_download", error := none }
    else
      { status := "failed", url := pdf_url, filename := none,
        size := none, method := none, error := some "Not a PDF file" }

/-- The `GeneratePdf.aspx` candidate list of `find_pdf_links`: a
single generation-endpoint link when the URL carries a `PRID`, and
nothing otherwise. -/
def primaryLinks (url : String) : List String :=
  match extractPrid url with
  | some prid => ["https://pib.gov.in/Utilities/GeneratePdf.aspx?ID=" ++ prid]
  | none => []

/-- One anchor-scanning pass of `find_pdf_links`: every href passing
`cond` is transformed by `tr` and inserted into the growing set. -/
def addLinks (cond : String → Bool) (tr : String → String)
    (acc : List String) (hrefs : List String) : List String :=
  hrefs.foldl (fun a href => if cond href then insertUniq a (tr href) else a) acc

/-- `fetch_pdfs.find_pdf_links`: the generation-endpoint link, then
the `specificdocs` pass over all anchors, then the main-content pass;
a failed page fetch yields the empty list. -/
def find_pdf_links (env : FetchEnv) (url : String) : List String :=
  match env.page with
  | none => []
  | some pg =>
    let base := primaryLinks url
    let withDocs := addLinks is_valid_pdf_link
      (fun href =>
        if strStartsWith href "https://static.pib.gov.in/WriteReadData/specificdocs/" then href
        else env.urljoin url href)
      base pg.anchors
    addLinks
      (fun href => is_valid_pdf_link href && !(strStartsWith href "javascript:"))
      (fun href => env.urljoin url href) withDocs pg.mainAnchors

/-- The press-release identifier `process_single_url` works with:
the regex capture, or the literal `unknown`. -/
def pridOf (url : String) : String :=
  match extractPrid url with
  | some p => p
  | none => "unknown"

/-- The filename `process_single_url` passes to `download_pdf` for the
`i`-th of `numLinks` candidate links. -/
def fetchFilename (prid : String) (numLinks i : Nat) : String :=
  "pib_" ++ prid ++ (if numLinks > 1 then "_" ++ toString i else "") ++ ".pdf"

/-- `fetch_pdfs.process_single_url`, paired with the trace of
acquisition steps it performs in order. -/
def process_single_url (env : FetchEnv) (url0 : String) :
    Option UrlResult × List Attempt :=
  let url := pyStrip url0
  if url = "" then (none, [])
  else
    let prid := pridOf url
    let pdf_result := convert_to_pdf env url prid
    if pdf_result.status = "success" then
      (some { url := url, prid := some prid, status := "success",
              files := [pdf_result], error := none },
       [Attempt.browser])
    else
      let pdf_links := find_pdf_links env url
      let attempts := Attempt.browser :: Attempt.scan :: pdf_links.map Attempt.download
      let downloaded :=
        (pdf_links.enum.map fun p =>
          download_pdf env p.2 (fetchFilename prid pdf_links.length p.1)).filter
          fun r => r.status = "success"
      if downloaded ≠ [] then
        (some { url := url, prid := some prid, status := "success",
                files := downloaded, error := none }, attempts)
      else
        (some { url := url, prid := some prid, status := "failed",
                files := [], error := some "No PDF generated or found" }, attempts)

/-- The number of results with status `success`, as counted by the
`__main__` block. -/
def countSuccess (results : List UrlResult) : Nat :=
  results.countP fun r => r.status = "success"

/-- `success_rate = success_count / len(valid_results) if valid_results else 0`,
with exact rational division in place of Python float division. -/
def successRate (results : List UrlResult) : ℚ :=
  if results = [] then 0 else (countSuccess results : ℚ) / results.length

/-- `exit(0 if success_rate >= 0.5 else 1)`. -/
def exitCode (results : List UrlResult) : Nat :=
  if (1 : ℚ)/2 ≤ successRate results then 0 else 1

/-- `[url.strip() for url in urls_str.split(',') if url.strip()]`. -/
def splitUrls (s : String) : List String :=
  ((splitOnChar ',' s.data).map fun l => pyStrip ⟨l⟩).filter fun u => u ≠ ""

/-- The `__main__` block of `fetch_pdfs.py`, reduced to its exit code:
exit 1 when `PDF_URLS` is empty, otherwise the success-rate-based exit
code over the non-`None` results of processing each URL (the
environment oracle may differ per URL). -/
def fetchMain (env : String → FetchEnv) (pdf_urls : String) : Nat :=
  if pdf_urls = "" then 1
  else
    let urls := splitUrls pdf_urls
    let results := urls.filterMap fun u => (process_single_url (env u) u).1
    exitCode results

end FetchPdfs

namespace Watcher

/-- What one run of `watcher.main` does, observably: the set of links
it treats as new (and proceeds to download), the set of links recorded
as sent at the end of the run (the argument of the run's
`save_sent_links` call, or the previously loaded set when the run
returns without saving — see `main_file` for the record file itself),
the set of links whose download was attempted, and the set of links
for which an email send was attempted. -/
structure RunOutcome where
  new_links : Finset String
  persisted : Finset String
  downloads : Finset String
  emails : Finset String
deriving DecidableEq

/-- `watcher.main`, over a download-success oracle `dl`, the set of
links currently on the page, and the previously persisted seen set.
The early-return branches leave the persisted set untouched; the
first-run branch persists the whole current set; otherwise the links
in `current - already_sent` are downloaded, the successful ones are
emailed, and `already_sent ∪ new_links` is persisted. -/
def main (dl : String → Bool) (current_links already_sent : Finset String) :
    RunOutcome :=
  if current_links = ∅ then
    ⟨∅, already_sent, ∅, ∅⟩
  else if already_sent = ∅ then
    ⟨∅, current_links, ∅, ∅⟩
  else
    let new_links := current_links \ already_sent
    if new_links = ∅ then ⟨∅, already_sent, ∅, ∅⟩
    else
      ⟨new_links, already_sent ∪ new_links, new_links,
        new_links.filter fun u => dl u = true⟩

/-- `watcher.download_pdf`'s filename choice: `url.split('/')[-1]`. -/
def download_filename (url : String) : String :=
  ⟨(splitOnChar '/' url.data).getLastD []⟩

/-- The file contents produced by `f.writelines(link + '\n' for link in ...)`:
each string is written in order, followed by a newline. -/
def writeLinks : List String → List Char
  | [] => []
  | l :: rest => l.data ++ '\n' :: writeLinks rest

/-- `watcher.save_sent_links`: writes the links of the set in sorted
order, one per line. -/
def save_sent_links (links_set : Finset String) : List Char :=
  writeLinks (links_set.sort (· ≤ ·))

/-- `watcher.load_sent_links`: reads the record file's lines, strips
each, and returns the resulting set (the empty set for an empty or
absent file). -/
def load_sent_links (content : List Char) : Finset String :=
  ((pyLines content).map fun l => (⟨stripChars l⟩ : String)).toFinset

/-- `watcher.main` together with its record file: the run loads the
seen set from the file with `load_sent_links`, branches exactly as
`main`, and the second component is the file's contents after the run —
rewritten by `save_sent_links` in the two branches that save, and left
untouched by the early-return branches. -/
def main_file (dl : String → Bool) (current_links : Finset String)
    (file : List Char) : RunOutcome × List Char :=
  let already_sent := load_sent_links file
  if current_links = ∅ then (⟨∅, already_sent, ∅, ∅⟩, file)
  else if already_sent = ∅ then
    (⟨∅, current_links, ∅, ∅⟩, save_sent_links current_links)
  else
    let new_links := current_links \ already_sent
    if new_links = ∅ then (⟨∅, already_sent, ∅, ∅⟩, file)
    else
      (⟨new_links, already_sent ∪ new_links, new_links,
          new_links.filter fun u => dl u = true⟩,
        save_sent_links (already_sent ∪ new_links))

end Watcher

example : FetchPdfs.is_valid_pdf_link "https://static.pib.gov.in/WriteReadData/specificdocs/a.pdf" = true := by decide
example : FetchPdfs.is_valid_pdf_link "https://pib.gov.in/Utilities/GeneratePdf.aspx?ID=2138823" = false := by decide
example : FetchPdfs.is_valid_pdf_link "" = false := by decide
example : FetchPdfs.is_valid_pdf_link "javascript:void(0).pdf" = false := by decide
example : FetchPdfs.is_valid_pdf_link "https://x.gov/pdf/A.PDF" = true := by decide
example : extractPrid "https://pib.gov.in/PressReleasePage.aspx?PRID=2138823" = some "2138823" := by decide
example : extractPrid "https://pib.gov.in/PressReleasePage.aspx" = none := by decide
example : extractPrid "a?PRID=x&PRID=42b" = some "42" := by decide
example : pyStrip "  a b \n" = "a b" := by decide
example : splitOnChar '/' "a/b/".data = ["a".data, "b".data, ([] : List Char)] := by decide
example : pyLines "a\nb\n".data = ["a".data, "b".data] := by decide
example : pyLines "".data = [] := by decide
example : pyLines "\n".data = [[]] := by decide

/-! ### Concrete test fixtures -/

/-- A PIB press-release page carrying two `specificdocs` attachment
links and no main-content div. -/
def pageTwoDocs : FetchPdfs.PageData :=
  ⟨["https://static.pib.gov.in/WriteReadData/specificdocs/doc1.pdf",
    "https://static.pib.gov.in/WriteReadData/specificdocs/doc2.pdf"], []⟩

/-- A run in which the browser rendering succeeds. -/
def envBrowserOk : FetchPdfs.FetchEnv :=
  { browser := FetchPdfs.BrowserResp.ok 1000,
    page := some pageTwoDocs,
    download := fun _ => FetchPdfs.HttpResp.ok "application/pdf" 50,
    urljoin := fun _ href => href }

/-- A run in which the browser rendering fails, the generation
endpoint serves HTML, and the attachment links serve PDFs. -/
def envBrowserFail : FetchPdfs.FetchEnv :=
  { browser := FetchPdfs.BrowserResp.err "Timeout 60000ms exceeded",
    page := some pageTwoDocs,
    download := fun u =>
      if u = "https://pib.gov.in/Utilities/GeneratePdf.aspx?ID=2138823" then
        FetchPdfs.HttpResp.ok "text/html" 0
      else FetchPdfs.HttpResp.ok "application/pdf" 50,
    urljoin := fun _ href => href }

/-- A source-page URL carrying a `PRID`. -/
def urlPrid : String := "https://pib.gov.in/PressReleasePage.aspx?PRID=2138823"

/-- A processed-URL result with status `success`. -/
def resSuccess : FetchPdfs.UrlResult :=
  ⟨"https://pib.gov.in/PressReleasePage.aspx?PRID=1", some "1", "success", [], none⟩

/-- A processed-URL result with status `failed`. -/
def resFailed : FetchPdfs.UrlResult :=
  ⟨"https://pib.gov.in/PressReleasePage.aspx?PRID=2", some "2", "failed", [],
    some "No PDF generated or found"⟩

/-! ### Helper lemmas -/

theorem dropWhile_eq_self_of (p : Char → Bool) (l : List Char)
    (h : ∀ c ∈ l, p c = false) : l.dropWhile p = l := by
  cases l with
  | nil => rfl
  | cons c cs => simp [List.dropWhile_cons, h c (by simp)]

theorem stripChars_eq_self (l : List Char)
    (h : ∀ c ∈ l, c.isWhitespace = false) : stripChars l = l := by
  unfold stripChars
  rw [dropWhile_eq_self_of _ _ h]
  rw [dropWhile_eq_self_of _ _ (fun c hc => h c (List.mem_reverse.mp hc))]
  exact List.reverse_reverse l

theorem splitOnChar_ne_nil (sep : Char) (l : List Char) :
    splitOnChar sep l ≠ [] := by
  induction l with
  | nil => simp [splitOnChar]
  | cons c cs ih =>
    simp only [splitOnChar]
    split
    · simp
    · obtain ⟨h', t', hx⟩ := List.exists_cons_of_ne_nil ih
      simp [hx]

theorem splitOnChar_append (sep : Char) (x y : List Char) :
    splitOnChar sep (x ++ sep :: y) = splitOnChar sep x ++ splitOnChar sep y := by
  induction x with
  | nil => simp [splitOnChar]
  | cons c x' ih =>
    by_cases hc : c = sep
    · subst hc
      simp [List.cons_append, splitOnChar, ih]
    · obtain ⟨h', t', hx⟩ := List.exists_cons_of_ne_nil (splitOnChar_ne_nil sep x')
      simp [List.cons_append, splitOnChar, hc, ih, hx]

theorem splitOnChar_of_not_mem (sep : Char) (l : List Char) (h : sep ∉ l) :
    splitOnChar sep l = [l] := by
  induction l with
  | nil => rfl
  | cons c cs ih =>
    have hc : ¬ c = sep := fun e => h (e ▸ List.mem_cons_self c cs)
    have hcs : sep ∉ cs := fun e => h (List.mem_cons_of_mem c e)
    simp [splitOnChar, hc, ih hcs]

theorem takeWhile_all_append (p : Char → Bool) (d b : List Char)
    (hd : ∀ c ∈ d, p c = true) (hb : ∀ c ∈ b.take 1, p c = false) :
    (d ++ b).takeWhile p = d := by
  induction d with
  | nil =>
    cases b with
    | nil => rfl
    | cons c bs => simp [List.takeWhile_cons, hb c (by simp)]
  | cons c d' ih =>
    have h1 : p c = true := hd c (by simp)
    have h2 := ih (fun e he => hd e (List.mem_cons_of_mem c he))
    simp [List.takeWhile_cons, h1, h2]

theorem splitOnChar_writeLinks (L : List String)
    (h : ∀ l ∈ L, ('\n') ∉ l.data) :
    splitOnChar '\n' (Watcher.writeLinks L) = L.map String.data ++ [[]] := by
  induction L with
  | nil => rfl
  | cons l rest ih =>
    have hl : ('\n') ∉ l.data := h l (by simp)
    have hrest := ih fun e he => h e (List.mem_cons_of_mem l he)
    show splitOnChar '\n' (l.data ++ '\n' :: Watcher.writeLinks rest) = _
    rw [splitOnChar_append, splitOnChar_of_not_mem _ _ hl, hrest]
    simp

theorem pyLines_writeLinks (L : List String)
    (h : ∀ l ∈ L, ('\n') ∉ l.data) :
    pyLines (Watcher.writeLinks L) = L.map String.data := by
  unfold pyLines
  rw [splitOnChar_writeLinks L h]
  simp [List.getLast?_concat, List.dropLast_concat]

theorem pridAtB_cons_succ (c : Char) (l : List Char) (i : Nat) :
    pridAtB (c :: l) (i + 1) = pridAtB l i := by
  simp [pridAtB, List.drop_succ_cons]

theorem pridAtB_of_length_le (u : List Char) (i : Nat) (h : u.length ≤ i) :
    pridAtB u i = false := by
  simp [pridAtB, List.drop_eq_nil_of_le h, pridPat]

theorem searchPrid_eq (a d b : List Char) (hd : d ≠ [])
    (hdig : ∀ c ∈ d, c.isDigit = true)
    (hb : ∀ c ∈ b.take 1, c.isDigit = false)
    (ha : ∀ i < a.length, pridAtB (a ++ pridPat ++ d ++ b) i = false) :
    searchPrid (a ++ pridPat ++ d ++ b) = some d := by
  induction a with
  | nil =>
    obtain ⟨e, d', hde⟩ := List.exists_cons_of_ne_nil hd
    subst hde
    have he : e.isDigit = true := hdig e (by simp)
    show searchPrid ('P' :: 'R' :: 'I' :: 'D' :: '=' :: (e :: d' ++ b)) = _
    have hcond : pridAtB ('P' :: 'R' :: 'I' :: 'D' :: '=' :: (e :: d' ++ b)) 0 = true := by
      simp [pridAtB, pridPat, he]
    rw [searchPrid, if_pos hcond]
    show some (digitRun ((e :: d') ++ b)) = some (e :: d')
    rw [digitRun, takeWhile_all_append Char.isDigit (e :: d') b hdig hb]
  | cons c a' ih =>
    have hassoc : (c :: a') ++ pridPat ++ d ++ b = c :: (a' ++ pridPat ++ d ++ b) := rfl
    rw [hassoc]
    have h0 : pridAtB (c :: (a' ++ pridPat ++ d ++ b)) 0 = false := by
      have h1 := ha 0 (by simp)
      rwa [hassoc] at h1
    rw [searchPrid, if_neg (by rw [h0]; exact Bool.false_ne_true)]
    refine ih fun i hi => ?_
    have h2 := ha (i + 1) (Nat.succ_lt_succ hi)
    rwa [hassoc, pridAtB_cons_succ] at h2

theorem searchPrid_none (u : List Char) (h : ∀ i, pridAtB u i = false) :
    searchPrid u = none := by
  induction u with
  | nil => rfl
  | cons c cs ih =>
    rw [searchPrid, if_neg (by simp [h 0])]
    exact ih fun i => by have := h (i + 1); rwa [pridAtB_cons_succ] at this

theorem insertUniq_nodup (acc : List String) (x : String) (h : acc.Nodup) :
    (insertUniq acc x).Nodup := by
  unfold insertUniq
  split
  · exact h
  · next hx => simp [List.nodup_append, h, hx]

theorem addLinks_nodup (cond : String → Bool) (tr : String → String)
    (hrefs : List String) :
    ∀ acc : List String, acc.Nodup → (FetchPdfs.addLinks cond tr acc hrefs).Nodup := by
  induction hrefs with
  | nil => exact fun acc h => h
  | cons href rest ih =>
    intro acc h
    have h' : (if cond href = true then insertUniq acc (tr href) else acc).Nodup := by
      split
      · exact insertUniq_nodup acc (tr href) h
      · exact h
    exact ih _ h'

theorem primaryLinks_nodup (url : String) : (FetchPdfs.primaryLinks url).Nodup := by
  unfold FetchPdfs.primaryLinks
  cases extractPrid url <;> simp

theorem find_pdf_links_nodup (env : FetchPdfs.FetchEnv) (url : String) :
    (FetchPdfs.find_pdf_links env url).Nodup := by
  unfold FetchPdfs.find_pdf_links
  cases env.page with
  | none => exact List.nodup_nil
  | some pg =>
    exact addLinks_nodup _ _ _ _ (addLinks_nodup _ _ _ _ (primaryLinks_nodup url))

theorem process_trace_success (env : FetchPdfs.FetchEnv) (url : String)
    (hne : pyStrip url ≠ "")
    (hs : (FetchPdfs.convert_to_pdf env (pyStrip url) (FetchPdfs.pridOf (pyStrip url))).status = "success") :
    (FetchPdfs.process_single_url env url).2 = [FetchPdfs.Attempt.browser] := by
  unfold FetchPdfs.process_single_url
  rw [if_neg hne, if_pos hs]

theorem process_trace_fallback (env : FetchPdfs.FetchEnv) (url : String)
    (hne : pyStrip url ≠ "")
    (hs : (FetchPdfs.convert_to_pdf env (pyStrip url) (FetchPdfs.pridOf (pyStrip url))).status ≠ "success") :
    (FetchPdfs.process_single_url env url).2 =
      FetchPdfs.Attempt.browser :: FetchPdfs.Attempt.scan ::
        (FetchPdfs.find_pdf_links env (pyStrip url)).map FetchPdfs.Attempt.download := by
  unfold FetchPdfs.process_single_url
  rw [if_neg hne, if_neg hs]
  dsimp only
  split <;> rfl

theorem watcher_main_of_subset (dl : String → Bool) (cur p' : Finset String)
    (h : cur ⊆ p') :
    (Watcher.main dl cur p').new_links = ∅ ∧ (Watcher.main dl cur p').emails = ∅ := by
  unfold Watcher.main
  by_cases h1 : cur = ∅
  · simp [h1]
  · have h2 : p' ≠ ∅ := fun e => h1 (Finset.subset_empty.mp (e ▸ h))
    have h3 : cur \ p' = ∅ := Finset.sdiff_eq_empty_iff_subset.mpr h
    rw [if_neg h1, if_neg h2]
    simp [h3]

theorem watcher_persisted_superset (dl : String → Bool)
    (cur prev : Finset String) :
    cur ⊆ (Watcher.main dl cur prev).persisted := by
  unfold Watcher.main
  by_cases h1 : cur = ∅
  · simp [h1]
  · rw [if_neg h1]
    by_cases h2 : prev = ∅
    · simp [h2]
    · rw [if_neg h2]
      by_cases h3 : cur \ prev = ∅
      · simp only [h3, if_pos rfl]
        exact Finset.sdiff_eq_empty_iff_subset.mp h3
      · rw [if_neg h3]
        show cur ⊆ prev ∪ cur \ prev
        rw [Finset.union_sdiff_self_eq_union]
        intro x hx
        exact Finset.mem_union_right prev hx

theorem load_save_of_ws_free (s : Finset String)
    (h : ∀ x ∈ s, ∀ c ∈ x.data, c.isWhitespace = false) :
    Watcher.load_sent_links (Watcher.save_sent_links s) = s := by
  have hnl : ∀ l ∈ s.sort (· ≤ ·), ('\n') ∉ l.data := by
    intro l hl hmem
    have hw := h l ((Finset.mem_sort _).mp hl) '\n' hmem
    simp at hw
  have hlines : pyLines (Watcher.save_sent_links s) =
      (s.sort (· ≤ ·)).map String.data := pyLines_writeLinks _ hnl
  unfold Watcher.load_sent_links
  rw [hlines, List.map_map]
  have hcongr : ∀ x ∈ s.sort (· ≤ ·),
      ((fun l => (⟨stripChars l⟩ : String)) ∘ String.data) x = id x := by
    intro x hx
    have hx' := h x ((Finset.mem_sort _).mp hx)
    show (⟨stripChars x.data⟩ : String) = x
    rw [stripChars_eq_self x.data hx']
  rw [List.map_congr_left hcongr, List.map_id]
  exact Finset.sort_toFinset _ s

theorem main_file_fst (dl : String → Bool) (cur : Finset String)
    (file : List Char) :
    (Watcher.main_file dl cur file).1 =
      Watcher.main dl cur (Watcher.load_sent_links file) := by
  unfold Watcher.main_file Watcher.main
  dsimp only
  split_ifs <;> rfl

theorem main_file_run_of_subset (dl : String → Bool) (cur : Finset String)
    (file : List Char) (hsub : cur ⊆ Watcher.load_sent_links file) :
    (Watcher.main_file dl cur file).1.new_links = ∅ ∧
    (Watcher.main_file dl cur file).1.emails = ∅ := by
  rw [main_file_fst]
  exact watcher_main_of_subset dl cur _ hsub

/-! ### Claim theorems -/

/-- C4: `is_valid_pdf_link` is a pure predicate returning `True`
exactly when the input is a non-empty string that, after lowercasing,
ends with `.pdf`, does not start with `javascript:` or `mailto:`, and
contains one of `specificdocs`, `generatepdf.aspx`, `/pdf/` or
`/document/`; in particular `GeneratePdf.aspx?ID=<digits>` URLs, which
do not end with `.pdf`, are rejected. -/
theorem C4_link_filter :
    (∀ href : String,
      FetchPdfs.is_valid_pdf_link href = true ↔ FetchPdfs.validPdfLinkSpec href) ∧
    FetchPdfs.is_valid_pdf_link "GeneratePdf.aspx?ID=2138823" = false ∧
    FetchPdfs.is_valid_pdf_link
      "https://pib.gov.in/Utilities/GeneratePdf.aspx?ID=2138823" = false := by
  refine ⟨?_, by decide, by decide⟩
  intro href
  unfold FetchPdfs.is_valid_pdf_link FetchPdfs.validPdfLinkSpec
  by_cases h1 : href = ""
  · simp [h1]
  · rw [if_neg h1]
    by_cases h2 : strEndsWith (toLowerStr href) ".pdf" = true
    · simp only [h2, Bool.not_true, if_neg, Bool.false_eq_true, if_false]
      by_cases h3 : strStartsWith (toLowerStr href) "javascript:" = true
      · simp [h1, h2, h3]
      · by_cases h4 : strStartsWith (toLowerStr href) "mailto:" = true
        · simp [h1, h2, h3, h4]
        · simp [h1, h2, h3, h4, Bool.or_eq_true, or_assoc]
    · simp [h1, h2]

/-- C8: on a first run (empty persisted seen set), the watcher
persists exactly the current link set and terminates without
attempting any download or email, whether or not the page contains
links. -/
theorem C8_first_run (dl : String → Bool) (current : Finset String) :
    (Watcher.main dl current ∅).persisted = current ∧
    (Watcher.main dl current ∅).downloads = ∅ ∧
    (Watcher.main dl current ∅).emails = ∅ := by
  unfold Watcher.main
  by_cases h : current = ∅
  · simp [h]
  · simp [h]

/-- C2 counterexample: on a first run the claimed identity
`new = current − previous` fails: the watcher reports no links as new
although `current \ ∅` is non-empty. -/
theorem C2_counterexample :
    (Watcher.main (fun _ => true) {"a"} ∅).new_links ≠
      ({"a"} : Finset String) \ (∅ : Finset String) := by
  decide

/-- C2 (amended): on every run whose persisted seen set is non-empty,
the set of links treated as new equals `current \ previous`; and the
diffing is idempotent for whitespace-free links: when the links on the
page and the entries loaded from the record file contain no
whitespace, a second run over the same page content, starting from the
record file the first run leaves behind (so that the persisted set
passes through the `save_sent_links` / `load_sent_links` file round
trip), yields no new links and attempts no email. -/
theorem C2_diff_idempotent :
    (∀ (dl : String → Bool) (cur prev : Finset String), prev ≠ ∅ →
      (Watcher.main dl cur prev).new_links = cur \ prev) ∧
    (∀ (dl dl2 : String → Bool) (cur : Finset String) (file : List Char),
      (∀ x ∈ cur, ∀ c ∈ x.data, c.isWhitespace = false) →
      (∀ x ∈ Watcher.load_sent_links file, ∀ c ∈ x.data, c.isWhitespace = false) →
      (Watcher.main_file dl2 cur (Watcher.main_file dl cur file).2).1.new_links = ∅ ∧
      (Watcher.main_file dl2 cur (Watcher.main_file dl cur file).2).1.emails = ∅) := by
  constructor
  · intro dl cur prev hp
    unfold Watcher.main
    by_cases h1 : cur = ∅
    · simp [h1]
    · rw [if_neg h1, if_neg hp]
      by_cases h3 : cur \ prev = ∅
      · simp [h3]
      · simp [h3]
  · intro dl dl2 cur file hcur hfile
    refine main_file_run_of_subset dl2 cur _ ?_
    unfold Watcher.main_file
    dsimp only
    by_cases h1 : cur = ∅
    · rw [if_pos h1, h1]
      exact Finset.empty_subset _
    · rw [if_neg h1]
      by_cases h2 : Watcher.load_sent_links file = ∅
      · rw [if_pos h2]
        show cur ⊆ Watcher.load_sent_links (Watcher.save_sent_links cur)
        rw [load_save_of_ws_free cur hcur]
      · rw [if_neg h2]
        by_cases h3 : cur \ Watcher.load_sent_links file = ∅
        · rw [if_pos h3]
          exact Finset.sdiff_eq_empty_iff_subset.mp h3
        · rw [if_neg h3]
          show cur ⊆ Watcher.load_sent_links (Watcher.save_sent_links
            (Watcher.load_sent_links file ∪ (cur \ Watcher.load_sent_links file)))
          have hws : ∀ x ∈ Watcher.load_sent_links file ∪
              (cur \ Watcher.load_sent_links file),
              ∀ c ∈ x.data, c.isWhitespace = false := by
            intro x hx
            rcases Finset.mem_union.mp hx with hx | hx
            · exact hfile x hx
            · exact hcur x (Finset.mem_sdiff.mp hx).1
          rw [load_save_of_ws_free _ hws, Finset.union_sdiff_self_eq_union]
          intro x hx
          exact Finset.mem_union_right _ hx

/-- C2 witness: the amended statement at a concrete non-empty seen
set, and the file-level idempotence starting from the record file
`b\n`. -/
theorem C2_witness :
    ({"b"} : Finset String) ≠ ∅ ∧
    (Watcher.main (fun _ => true) {"a"} {"b"}).new_links =
      ({"a"} : Finset String) \ {"b"} ∧
    (Watcher.main_file (fun _ => true) {"a"}
        (Watcher.main_file (fun _ => true) {"a"} "b\n".data).2).1.new_links = ∅ ∧
    (Watcher.main_file (fun _ => true) {"a"}
        (Watcher.main_file (fun _ => true) {"a"} "b\n".data).2).1.emails = ∅ :=
  ⟨by decide, C2_diff_idempotent.1 _ _ _ (by decide),
   (C2_diff_idempotent.2 (fun _ => true) (fun _ => true) {"a"} "b\n".data
     (by decide) (by decide)).1,
   (C2_diff_idempotent.2 (fun _ => true) (fun _ => true) {"a"} "b\n".data
     (by decide) (by decide)).2⟩

/-- C1 counterexample: at a concrete source-page URL carrying a PRID,
the first (and only) acquisition step the fetcher performs is the
browser rendering, not a request to the direct PDF generation
endpoint, refuting the claimed order
endpoint → browser → scan-and-download. -/
theorem C1_counterexample :
    (FetchPdfs.process_single_url envBrowserOk urlPrid).2 =
      [FetchPdfs.Attempt.browser] ∧
    FetchPdfs.Attempt.browser ≠
      FetchPdfs.Attempt.download
        "https://pib.gov.in/Utilities/GeneratePdf.aspx?ID=2138823" := by
  decide

/-- C1 (amended): for every source-page URL with non-empty stripped
form, the fetcher attempts browser rendering first; if and only if it
fails, it then scans the page for PDF links (the direct generation
endpoint being one of the scanned candidates when a PRID is present)
and downloads each distinct candidate exactly once, so each fallback
method runs at most once. -/
theorem C1_fallback_order (env : FetchPdfs.FetchEnv) (url : String)
    (hne : pyStrip url ≠ "") :
    ((FetchPdfs.convert_to_pdf env (pyStrip url) (FetchPdfs.pridOf (pyStrip url))).status = "success" →
      (FetchPdfs.process_single_url env url).2 = [FetchPdfs.Attempt.browser]) ∧
    ((FetchPdfs.convert_to_pdf env (pyStrip url) (FetchPdfs.pridOf (pyStrip url))).status ≠ "success" →
      (FetchPdfs.process_single_url env url).2 =
        FetchPdfs.Attempt.browser :: FetchPdfs.Attempt.scan ::
          (FetchPdfs.find_pdf_links env (pyStrip url)).map FetchPdfs.Attempt.download ∧
      (FetchPdfs.find_pdf_links env (pyStrip url)).Nodup) :=
  ⟨fun hs => process_trace_success env url hne hs,
   fun hs => ⟨process_trace_fallback env url hne hs,
              find_pdf_links_nodup env (pyStrip url)⟩⟩

/-- C1 witness: the amended fallback order at a concrete failing
browser run. -/
theorem C1_fallback_order_witness :
    (FetchPdfs.process_single_url envBrowserFail urlPrid).2 =
      FetchPdfs.Attempt.browser :: FetchPdfs.Attempt.scan ::
        (FetchPdfs.find_pdf_links envBrowserFail (pyStrip urlPrid)).map
          FetchPdfs.Attempt.download ∧
    (FetchPdfs.find_pdf_links envBrowserFail (pyStrip urlPrid)).Nodup :=
  (C1_fallback_order envBrowserFail urlPrid (by decide)).2 (by decide)

/-- C3: with a non-empty processed-result list the fetcher exits 0
exactly when at least half of the results have status `success`; with
an empty result list — in particular when `PDF_URLS` yields no URLs —
it exits 1. -/
theorem C3_exit_code :
    (∀ results : List FetchPdfs.UrlResult, results ≠ [] →
      (FetchPdfs.exitCode results = 0 ↔
        (1 : ℚ)/2 ≤ (FetchPdfs.countSuccess results : ℚ) / results.length)) ∧
    FetchPdfs.exitCode [] = 1 ∧
    (∀ (env : String → FetchPdfs.FetchEnv) (s : String),
      FetchPdfs.splitUrls s = [] → FetchPdfs.fetchMain env s = 1) := by
  have hempty : FetchPdfs.exitCode [] = 1 := by
    unfold FetchPdfs.exitCode FetchPdfs.successRate
    norm_num
  refine ⟨?_, hempty, ?_⟩
  · intro results hne
    unfold FetchPdfs.exitCode FetchPdfs.successRate
    rw [if_neg hne]
    split_ifs with h <;> simpa using h
  · intro env s hs
    unfold FetchPdfs.fetchMain
    by_cases h : s = ""
    · rw [if_pos h]
    · rw [if_neg h]
      dsimp only
      rw [hs, List.filterMap_nil]
      exact hempty

/-- C3 witness: the exit-code characterisation at a concrete
two-element result list and a concrete URL string yielding no URLs. -/
theorem C3_exit_code_witness :
    ([resSuccess, resFailed] ≠ ([] : List FetchPdfs.UrlResult)) ∧
    (FetchPdfs.exitCode [resSuccess, resFailed] = 0 ↔
      (1 : ℚ)/2 ≤ (FetchPdfs.countSuccess [resSuccess, resFailed] : ℚ) /
        ([resSuccess, resFailed] : List FetchPdfs.UrlResult).length) ∧
    FetchPdfs.splitUrls " , ,, " = [] ∧
    FetchPdfs.fetchMain (fun _ => envBrowserOk) " , ,, " = 1 :=
  ⟨by decide, C3_exit_code.1 [resSuccess, resFailed] (by decide),
   by decide, C3_exit_code.2.2 (fun _ => envBrowserOk) " , ,, " (by decide)⟩

/-- C5: the press-release identifier extracted from a URL is the first
maximal digit run following an occurrence of `PRID=` (no earlier
position matches `PRID=<digit>`); and when no position matches,
extraction yields nothing, `process_single_url` works with the
identifier `unknown`, and `find_pdf_links` contributes no
generation-endpoint link. -/
theorem C5_prid_extraction :
    (∀ a d b : List Char, d ≠ [] → (∀ c ∈ d, c.isDigit = true) →
      (∀ c ∈ b.take 1, c.isDigit = false) →
      (∀ i < a.length, pridAtB (a ++ pridPat ++ d ++ b) i = false) →
      extractPrid ⟨a ++ pridPat ++ d ++ b⟩ = some ⟨d⟩) ∧
    (∀ u : String, (∀ i < u.data.length, pridAtB u.data i = false) →
      extractPrid u = none ∧ FetchPdfs.pridOf u = "unknown" ∧
      FetchPdfs.primaryLinks u = []) := by
  constructor
  · intro a d b hd hdig hb ha
    unfold extractPrid
    show (searchPrid (a ++ pridPat ++ d ++ b)).map _ = _
    rw [searchPrid_eq a d b hd hdig hb ha]
    rfl
  · intro u h
    have hall : ∀ i, pridAtB u.data i = false := fun i => by
      by_cases hi : i < u.data.length
      · exact h i hi
      · exact pridAtB_of_length_le u.data i (Nat.le_of_not_lt hi)
    have hs := searchPrid_none u.data hall
    refine ⟨?_, ?_, ?_⟩
    · unfold extractPrid
      rw [hs]
      rfl
    · unfold FetchPdfs.pridOf extractPrid
      rw [hs]
      rfl
    · unfold FetchPdfs.primaryLinks extractPrid
      rw [hs]
      rfl

/-- C5 witness: the characterisation at `?PRID=2138823&x` and at a
PRID-free URL. -/
theorem C5_prid_extraction_witness :
    extractPrid ⟨"?".data ++ pridPat ++ "2138823".data ++ "&x".data⟩ =
      some ⟨"2138823".data⟩ ∧
    (extractPrid "https://pib.gov.in/PressReleasePage.aspx" = none ∧
      FetchPdfs.pridOf "https://pib.gov.in/PressReleasePage.aspx" = "unknown" ∧
      FetchPdfs.primaryLinks "https://pib.gov.in/PressReleasePage.aspx" = []) :=
  ⟨C5_prid_extraction.1 "?".data "2138823".data "&x".data
      (by decide) (by decide) (by decide) (by decide),
   C5_prid_extraction.2 "https://pib.gov.in/PressReleasePage.aspx" (by decide)⟩

/-- C6 counterexample: with two candidate links on one page the
fetcher writes `pib_2138823_1.pdf` and `pib_2138823_2.pdf`, not
`pib_2138823.pdf`; and the watcher names its download by the final
URL segment, which need not start with `pib_` at all. -/
theorem C6_counterexample :
    ((FetchPdfs.process_single_url envBrowserFail urlPrid).1.map
        fun r => r.files.map fun f => f.filename) =
      some [some "pib_2138823_1.pdf", some "pib_2138823_2.pdf"] ∧
    ("pib_2138823_1.pdf" : String) ≠ "pib_2138823.pdf" ∧
    Watcher.download_filename "https://mospi.gov.in/doc/report.pdf" = "report.pdf" ∧
    strStartsWith "report.pdf" "pib_" = false := by
  decide

/-- C6 (amended): the fetcher's browser-generated PDF is written as
`pib_<prid>.pdf`; a direct download is written under the filename it
was invoked with, which is `pib_<prid>.pdf` when at most one candidate
link was found and `pib_<prid>_<i>.pdf` when several were; the
watcher's download is named by the final `/`-separated segment of the
PDF URL. -/
theorem C6_filenames :
    (∀ (env : FetchPdfs.FetchEnv) (url prid : String),
      (FetchPdfs.convert_to_pdf env url prid).status = "success" →
      (FetchPdfs.convert_to_pdf env url prid).filename =
        some ("pib_" ++ prid ++ ".pdf")) ∧
    (∀ (env : FetchPdfs.FetchEnv) (pdf_url fn : String),
      (FetchPdfs.download_pdf env pdf_url fn).status = "success" →
      (FetchPdfs.download_pdf env pdf_url fn).filename = some fn) ∧
    (∀ (prid : String) (n i : Nat),
      (n ≤ 1 → FetchPdfs.fetchFilename prid n i = "pib_" ++ prid ++ ".pdf") ∧
      (1 < n → FetchPdfs.fetchFilename prid n i =
        "pib_" ++ prid ++ "_" ++ toString i ++ ".pdf")) ∧
    (∀ x y : List Char,
      Watcher.download_filename ⟨x ++ '/' :: y⟩ = Watcher.download_filename ⟨y⟩) ∧
    (∀ y : List Char, '/' ∉ y → Watcher.download_filename ⟨y⟩ = ⟨y⟩) := by
  refine ⟨?_, ?_, ?_, ?_, ?_⟩
  · intro env url prid hs
    unfold FetchPdfs.convert_to_pdf at hs ⊢
    cases h : env.browser with
    | ok size => rfl
    | err e =>
      rw [h] at hs
      exact absurd (show ("failed" : String) = "success" from hs) (by decide)
  · intro env pdf_url fn hs
    unfold FetchPdfs.download_pdf at hs ⊢
    cases h : env.download pdf_url with
    | err e =>
      rw [h] at hs
      exact absurd (show ("failed" : String) = "success" from hs) (by decide)
    | ok ct size =>
      rw [h] at hs
      dsimp only at hs ⊢
      by_cases hct : strContains (toLowerStr ct) "pdf" = true
      · rw [if_pos hct]
      · rw [if_neg hct] at hs
        exact absurd (show ("failed" : String) = "success" from hs) (by decide)
  · intro prid n i
    constructor
    · intro hn
      have hgt : ¬ n > 1 := by omega
      simp [FetchPdfs.fetchFilename, hgt]
    · intro hn
      simp [FetchPdfs.fetchFilename, hn, String.append_assoc]
  · intro x y
    unfold Watcher.download_filename
    refine congrArg (fun l : List Char => (⟨l⟩ : String)) ?_
    show (splitOnChar '/' (x ++ '/' :: y)).getLastD [] =
      (splitOnChar '/' y).getLastD []
    rw [splitOnChar_append, List.getLastD_eq_getLast?, List.getLastD_eq_getLast?,
      List.getLast?_append,
      Option.or_of_isSome (List.getLast?_isSome.mpr (splitOnChar_ne_nil '/' y))]
  · intro y hy
    unfold Watcher.download_filename
    rw [show (String.mk y).data = y from rfl, splitOnChar_of_not_mem '/' y hy]
    rfl

/-- C6 witness: the amended naming rules at concrete inputs. -/
theorem C6_filenames_witness :
    ((FetchPdfs.convert_to_pdf envBrowserOk urlPrid "2138823").status = "success" ∧
      (FetchPdfs.convert_to_pdf envBrowserOk urlPrid "2138823").filename =
        some ("pib_" ++ "2138823" ++ ".pdf")) ∧
    FetchPdfs.fetchFilename "2138823" 1 0 = "pib_" ++ "2138823" ++ ".pdf" ∧
    FetchPdfs.fetchFilename "2138823" 3 2 =
      "pib_" ++ "2138823" ++ "_" ++ toString 2 ++ ".pdf" ∧
    Watcher.download_filename ⟨"doc".data ++ '/' :: "report.pdf".data⟩ =
      Watcher.download_filename ⟨"report.pdf".data⟩ ∧
    Watcher.download_filename ⟨"report.pdf".data⟩ = ⟨"report.pdf".data⟩ :=
  ⟨⟨by decide, C6_filenames.1 envBrowserOk urlPrid "2138823" (by decide)⟩,
   (C6_filenames.2.2.1 "2138823" 1 0).1 (by decide),
   (C6_filenames.2.2.1 "2138823" 3 2).2 (by decide),
   C6_filenames.2.2.2.1 "doc".data "report.pdf".data,
   C6_filenames.2.2.2.2 "report.pdf".data (by decide)⟩

theorem process_trace_nodup (env : FetchPdfs.FetchEnv) (url : String) :
    ((FetchPdfs.process_single_url env url).2).Nodup := by
  by_cases hne : pyStrip url = ""
  · unfold FetchPdfs.process_single_url
    rw [if_pos hne]
    exact List.nodup_nil
  · by_cases hs : (FetchPdfs.convert_to_pdf env (pyStrip url)
        (FetchPdfs.pridOf (pyStrip url))).status = "success"
    · rw [process_trace_success env url hne hs]
      simp
    · rw [process_trace_fallback env url hne hs]
      refine List.nodup_cons.mpr ⟨?_, List.nodup_cons.mpr ⟨?_, ?_⟩⟩
      · simp
      · simp
      · refine List.Nodup.map ?_ (find_pdf_links_nodup env (pyStrip url))
        intro x y hxy
        injection hxy

/-- C7: `convert_to_pdf` and `download_pdf` always return a result
record — success with no error field, or status `failed` with an error
field; a response whose content-type does not contain `pdf` yields
status `failed` with error `Not a PDF file`; and nothing is retried:
every acquisition step occurs at most once in a run's trace, with the
browser rendering attempted exactly once for every non-empty URL. -/
theorem C7_error_handling :
    (∀ (env : FetchPdfs.FetchEnv) (url prid : String),
      ((FetchPdfs.convert_to_pdf env url prid).status = "success" ∧
        (FetchPdfs.convert_to_pdf env url prid).error = none) ∨
      ((FetchPdfs.convert_to_pdf env url prid).status = "failed" ∧
        (FetchPdfs.convert_to_pdf env url prid).error ≠ none)) ∧
    (∀ (env : FetchPdfs.FetchEnv) (pdf_url fn : String),
      ((FetchPdfs.download_pdf env pdf_url fn).status = "success" ∧
        (FetchPdfs.download_pdf env pdf_url fn).error = none) ∨
      ((FetchPdfs.download_pdf env pdf_url fn).status = "failed" ∧
        (FetchPdfs.download_pdf env pdf_url fn).error ≠ none)) ∧
    (∀ (env : FetchPdfs.FetchEnv) (pdf_url fn ct : String) (sz : Nat),
      env.download pdf_url = FetchPdfs.HttpResp.ok ct sz →
      strContains (toLowerStr ct) "pdf" = false →
      (FetchPdfs.download_pdf env pdf_url fn).status = "failed" ∧
      (FetchPdfs.download_pdf env pdf_url fn).error = some "Not a PDF file") ∧
    (∀ (env : FetchPdfs.FetchEnv) (url : String) (a : FetchPdfs.Attempt),
      (FetchPdfs.process_single_url env url).2.count a ≤ 1) ∧
    (∀ (env : FetchPdfs.FetchEnv) (url : String), pyStrip url ≠ "" →
      (FetchPdfs.process_single_url env url).2.count FetchPdfs.Attempt.browser = 1) := by
  refine ⟨?_, ?_, ?_, ?_, ?_⟩
  · intro env url prid
    unfold FetchPdfs.convert_to_pdf
    cases env.browser with
    | ok size => left; exact ⟨rfl, rfl⟩
    | err e => right; exact ⟨rfl, by simp⟩
  · intro env pdf_url fn
    unfold FetchPdfs.download_pdf
    cases env.download pdf_url with
    | err e => right; exact ⟨rfl, by simp⟩
    | ok ct size =>
      dsimp only
      by_cases hct : strContains (toLowerStr ct) "pdf" = true
      · rw [if_pos hct]
        left; exact ⟨rfl, rfl⟩
      · rw [if_neg hct]
        right; exact ⟨rfl, by simp⟩
  · intro env pdf_url fn ct sz h hct
    unfold FetchPdfs.download_pdf
    rw [h]
    dsimp only
    rw [if_neg (by rw [hct]; exact Bool.false_ne_true)]
    exact ⟨rfl, rfl⟩
  · intro env url a
    exact List.nodup_iff_count_le_one.mp (process_trace_nodup env url) a
  · intro env url hne
    by_cases hs : (FetchPdfs.convert_to_pdf env (pyStrip url)
        (FetchPdfs.pridOf (pyStrip url))).status = "success"
    · rw [process_trace_success env url hne hs]
      simp
    · rw [process_trace_fallback env url hne hs, List.count_cons_self]
      have hnotin : FetchPdfs.Attempt.browser ∉
          FetchPdfs.Attempt.scan ::
            (FetchPdfs.find_pdf_links env (pyStrip url)).map
              FetchPdfs.Attempt.download := by simp
      rw [List.count_eq_zero.mpr hnotin]

/-- C7 witness: the error-handling facts at a concrete non-PDF
response and a concrete processed URL. -/
theorem C7_error_handling_witness :
    envBrowserFail.download "https://pib.gov.in/Utilities/GeneratePdf.aspx?ID=2138823" =
      FetchPdfs.HttpResp.ok "text/html" 0 ∧
    strContains (toLowerStr "text/html") "pdf" = false ∧
    ((FetchPdfs.download_pdf envBrowserFail
        "https://pib.gov.in/Utilities/GeneratePdf.aspx?ID=2138823"
        "pib_2138823_0.pdf").status = "failed" ∧
      (FetchPdfs.download_pdf envBrowserFail
        "https://pib.gov.in/Utilities/GeneratePdf.aspx?ID=2138823"
        "pib_2138823_0.pdf").error = some "Not a PDF file") ∧
    pyStrip urlPrid ≠ "" ∧
    (FetchPdfs.process_single_url envBrowserFail urlPrid).2.count
      FetchPdfs.Attempt.browser = 1 :=
  ⟨by decide, by decide,
   C7_error_handling.2.2.1 envBrowserFail
     "https://pib.gov.in/Utilities/GeneratePdf.aspx?ID=2138823"
     "pib_2138823_0.pdf" "text/html" 0 (by decide) (by decide),
   by decide,
   C7_error_handling.2.2.2.2 envBrowserFail urlPrid (by decide)⟩

/-- C9: saving a set of whitespace-free links and loading the record
file back returns exactly that set; the file holds the links in sorted
order, one per line. -/
theorem C9_persistence_roundtrip (s : Finset String)
    (h : ∀ x ∈ s, ∀ c ∈ x.data, c.isWhitespace = false) :
    Watcher.load_sent_links (Watcher.save_sent_links s) = s ∧
    pyLines (Watcher.save_sent_links s) = (s.sort (· ≤ ·)).map String.data ∧
    List.Sorted (· ≤ ·) (s.sort (· ≤ ·)) := by
  have hnl : ∀ l ∈ s.sort (· ≤ ·), ('\n') ∉ l.data := by
    intro l hl hmem
    have hw := h l ((Finset.mem_sort _).mp hl) '\n' hmem
    simp at hw
  have hlines : pyLines (Watcher.save_sent_links s) =
      (s.sort (· ≤ ·)).map String.data := pyLines_writeLinks _ hnl
  refine ⟨?_, hlines, Finset.sort_sorted _ _⟩
  unfold Watcher.load_sent_links
  rw [hlines, List.map_map]
  have hcongr : ∀ x ∈ s.sort (· ≤ ·),
      ((fun l => (⟨stripChars l⟩ : String)) ∘ String.data) x = id x := by
    intro x hx
    have hx' := h x ((Finset.mem_sort _).mp hx)
    show (⟨stripChars x.data⟩ : String) = x
    rw [stripChars_eq_self x.data hx']
  rw [List.map_congr_left hcongr, List.map_id]
  exact Finset.sort_toFinset _ s

/-- C9 witness: the round trip at a concrete two-element set. -/
theorem C9_persistence_roundtrip_witness :
    (∀ x ∈ ({"b", "a"} : Finset String), ∀ c ∈ x.data, c.isWhitespace = false) ∧
    Watcher.load_sent_links (Watcher.save_sent_links {"b", "a"}) =
      ({"b", "a"} : Finset String) ∧
    pyLines (Watcher.save_sent_links {"b", "a"}) =
      (({"b", "a"} : Finset String).sort (· ≤ ·)).map String.data ∧
    List.Sorted (· ≤ ·) (({"b", "a"} : Finset String).sort (· ≤ ·)) :=
  ⟨by decide, (C9_persistence_roundtrip {"b", "a"} (by decide)).1,
   (C9_persistence_roundtrip {"b", "a"} (by decide)).2.1,
   (C9_persistence_roundtrip {"b", "a"} (by decide)).2.2⟩
